import Mathlib

/-!
Shallow embedding of the SimpleMicroservices FastAPI application
(`src/main.py`, `src/models/business.py`, `src/models/product.py`).

The two process-local dictionaries `businesses : Dict[str, BusinessRead]`
and `products : Dict[int, ProductRead]` are modelled as association lists
in insertion order, which mirrors Python dict semantics: assignment to an
existing key replaces the value in place, assignment to a fresh key appends,
`del` removes the entry, and `list(d.values())` iterates in that order.

Timestamps (`datetime.utcnow`) are modelled as natural numbers supplied to
the handlers that actually read the clock; handlers whose Python code never
calls `datetime.utcnow` take no time argument.

Pydantic request-payload validation (which FastAPI performs before a handler
body runs) is modelled as an explicit boolean check at the head of each
handler; a failed check returns `ApiError.InvalidFormat` and leaves the
store untouched, mirroring the 422 response produced before any handler
code executes.  A pydantic `ValidationError` raised inside a handler body
(from `BusinessRead(**stored)` on a merged dict that lost a required field)
is modelled as `ApiError.ValidationFailed`.
-/

set_option autoImplicit false

/-- Consume exactly `n` decimal digits from the front of a character list,
returning the rest; used to transliterate the anchored regular expression
of `EINType`. -/
def matchDigits : Nat → List Char → Option (List Char)
  | 0, cs => some cs
  | _ + 1, [] => none
  | n + 1, c :: cs => if c.isDigit then matchDigits n cs else none

/-- Consume one occurrence of the literal character `c`. -/
def matchLit (c : Char) : List Char → Option (List Char)
  | [] => none
  | x :: t => if x = c then some t else none

/-- The `EINType` pattern of src/models/business.py, the anchored regular
expression `\d\x7b2\x7d-\d\x7b7\x7d`: consume two digits, the literal
hyphen, seven digits, and require the end of the string. -/
def einMatches (s : String) : Bool :=
  match matchDigits 2 s.data with
  | none => false
  | some r1 =>
      match matchLit '-' r1 with
      | none => false
      | some r2 =>
          match matchDigits 7 r2 with
          | some [] => true
          | _ => false

/-- Modelled from the spec: pydantic `EmailStr` validation is performed by
the third-party email-validator library, whose code is not under src/.
The spec (section 4.1) states the rule as local-part, `@`, domain with at
least one dot in the domain. -/
def emailValid (s : String) : Bool :=
  match s.data.splitOnP (fun c => c == '@') with
  | [lp, dom] => !lp.isEmpty && !dom.isEmpty && dom.contains '.'
  | _ => false

/-- The fields shared by `BusinessBase`, `BusinessCreate` and the embedded
`business` of a product (src/models/business.py). -/
structure BusinessBase where
  ein : String
  name : String
  email : String
  phone : Option String
  deriving DecidableEq, Repr

/-- Pydantic validation of a `BusinessBase`: `ein` must match `EINType`,
`email` must be a valid address; `name` is an unconstrained `str` and
`phone` an unconstrained `Optional[str]`. -/
def validBusinessBase (b : BusinessBase) : Bool :=
  einMatches b.ein && emailValid b.email

/-- `BusinessRead` of src/models/business.py: the stored server
representation, `BusinessBase` plus the two UTC timestamps. -/
structure BusinessRead where
  ein : String
  name : String
  email : String
  phone : Option String
  created_at : Nat
  updated_at : Nat
  deriving DecidableEq, Repr

/-- The `BusinessBase` part of a stored record. -/
def BusinessRead.toBase (r : BusinessRead) : BusinessBase :=
  ⟨r.ein, r.name, r.email, r.phone⟩

/-- The Python dict produced by `BusinessRead.model_dump()`: every key is
present; a value of `none` stands for Python `None`. -/
structure BusinessDict where
  ein : Option String
  name : Option String
  email : Option String
  phone : Option String
  created_at : Option Nat
  updated_at : Option Nat
  deriving DecidableEq, Repr

/-- `model_dump()` of a stored `BusinessRead`. -/
def BusinessRead.model_dump (r : BusinessRead) : BusinessDict :=
  ⟨some r.ein, some r.name, some r.email, r.phone, some r.created_at, some r.updated_at⟩

/-- `BusinessUpdate` of src/models/business.py.  The outer `Option` is
pydantic's per-field "explicitly set" bit (what `exclude_unset` consults);
the inner `Option` is the field's value, which may be an explicit `None`. -/
structure BusinessUpdate where
  ein : Option (Option String)
  name : Option (Option String)
  email : Option (Option String)
  phone : Option (Option String)
  deriving DecidableEq, Repr

/-- Pydantic validation of a `BusinessUpdate` payload: a set, non-null `ein`
must match `EINType`; a set, non-null `email` must be a valid address. -/
def validBusinessUpdate (u : BusinessUpdate) : Bool :=
  (match u.ein with | some (some e) => einMatches e | _ => true) &&
  (match u.email with | some (some m) => emailValid m | _ => true)

/-- `stored.update(update.model_dump(exclude_unset=True))`: every field the
payload explicitly sets overwrites the dict entry, every unset field keeps
the stored value; the timestamps are not payload fields and pass through. -/
def mergeBusiness (d : BusinessDict) (u : BusinessUpdate) : BusinessDict :=
  ⟨u.ein.getD d.ein, u.name.getD d.name, u.email.getD d.email, u.phone.getD d.phone,
    d.created_at, d.updated_at⟩

/-- `BusinessRead(**stored)` applied to a merged dict: the required fields
`ein`, `name`, `email`, `created_at`, `updated_at` must be non-null and the
constrained fields must validate; `phone` may be null. -/
def businessReadOfDict (d : BusinessDict) : Option BusinessRead :=
  match d.ein, d.name, d.email, d.created_at, d.updated_at with
  | some e, some n, some m, some c, some t =>
      if einMatches e && emailValid m then some ⟨e, n, m, d.phone, c, t⟩ else none
  | _, _, _, _, _ => none

/-- The outward failure signals of the handlers: HTTP 400 on duplicate key,
404 on absent key, 422 on a payload pydantic rejects before the handler
runs, 500 on a `ValidationError` raised inside a handler body. -/
inductive ApiError where
  | Conflict
  | NotFound
  | InvalidFormat
  | ValidationFailed
  deriving DecidableEq, Repr

/-- First value stored under a key, mirroring Python dict lookup. -/
def lookupKey {K V : Type} [DecidableEq K] : List (K × V) → K → Option V
  | [], _ => none
  | (k', v') :: t, k => if k' = k then some v' else lookupKey t k

/-- Python dict assignment `d[k] = v`: replace in place when the key exists,
append when it is fresh. -/
def upsert {K V : Type} [DecidableEq K] : List (K × V) → K → V → List (K × V)
  | [], k, v => [(k, v)]
  | (k', v') :: t, k, v => if k' = k then (k, v) :: t else (k', v') :: upsert t k v

/-- Python dict deletion `del d[k]`. -/
def eraseKey {K V : Type} [DecidableEq K] : List (K × V) → K → List (K × V)
  | [], _ => []
  | (k', v') :: t, k => if k' = k then t else (k', v') :: eraseKey t k

abbrev BusinessStore := List (String × BusinessRead)

/-- `create_business` of src/main.py: pydantic validates the payload, then
the handler raises `Conflict` if the EIN is already a key, otherwise stamps
both timestamps with the current time and stores the record under its EIN. -/
def create_business (now : Nat) (payload : BusinessBase) (s : BusinessStore) :
    Except ApiError BusinessRead × BusinessStore :=
  if !validBusinessBase payload then (.error .InvalidFormat, s)
  else if (lookupKey s payload.ein).isSome then (.error .Conflict, s)
  else
    let r : BusinessRead := ⟨payload.ein, payload.name, payload.email, payload.phone, now, now⟩
    (.ok r, upsert s payload.ein r)

/-- `list_businesses` of src/main.py: start from `list(businesses.values())`
and apply one exact-match filter per supplied query parameter, in order. -/
def list_businesses (ein name email phone : Option String) (s : BusinessStore) :
    List BusinessRead :=
  let results := s.map Prod.snd
  let results := match ein with
    | none => results
    | some e => results.filter (fun b => b.ein == e)
  let results := match name with
    | none => results
    | some n => results.filter (fun b => b.name == n)
  let results := match email with
    | none => results
    | some m => results.filter (fun b => b.email == m)
  match phone with
  | none => results
  | some p => results.filter (fun b => b.phone == some p)

/-- `get_business` of src/main.py: the stored record, or 404. -/
def get_business (business_ein : String) (s : BusinessStore) : Except ApiError BusinessRead :=
  match lookupKey s business_ein with
  | none => .error .NotFound
  | some r => .ok r

/-- `update_business` of src/main.py: pydantic validates the payload, the
handler raises 404 on an absent key, merges the set fields of the payload
onto `model_dump()` of the stored record, rebuilds a `BusinessRead` from the
merged dict, and stores it under the original path key. -/
def update_business (business_ein : String) (u : BusinessUpdate) (s : BusinessStore) :
    Except ApiError BusinessRead × BusinessStore :=
  if !validBusinessUpdate u then (.error .InvalidFormat, s)
  else match lookupKey s business_ein with
    | none => (.error .NotFound, s)
    | some stored =>
        match businessReadOfDict (mergeBusiness stored.model_dump u) with
        | none => (.error .ValidationFailed, s)
        | some r => (.ok r, upsert s business_ein r)

/-- `delete_business` of src/main.py: 404 on an absent key, otherwise remove. -/
def delete_business (ein : String) (s : BusinessStore) :
    Except ApiError Unit × BusinessStore :=
  if (lookupKey s ein).isNone then (.error .NotFound, s)
  else (.ok (), eraseKey s ein)

/-- `ProductBase` of src/models/product.py: a caller-supplied integer key, a
name, and an embedded full `BusinessBase` value. -/
structure ProductBase where
  product_id : Int
  name : String
  business : BusinessBase
  deriving DecidableEq, Repr

/-- Pydantic validation of a `ProductBase`: the embedded business is
validated under the `BusinessBase` field rules; `product_id` is an
unconstrained `int` and `name` an unconstrained `str`. -/
def validProductBase (p : ProductBase) : Bool :=
  validBusinessBase p.business

/-- `ProductRead` of src/models/product.py: the stored server
representation, `ProductBase` plus the two UTC timestamps. -/
structure ProductRead where
  product_id : Int
  name : String
  business : BusinessBase
  created_at : Nat
  updated_at : Nat
  deriving DecidableEq, Repr

/-- The Python dict produced by `ProductRead.model_dump()`. -/
structure ProductDict where
  product_id : Option Int
  name : Option String
  business : Option BusinessBase
  created_at : Option Nat
  updated_at : Option Nat
  deriving DecidableEq, Repr

/-- `model_dump()` of a stored `ProductRead`. -/
def ProductRead.model_dump (r : ProductRead) : ProductDict :=
  ⟨some r.product_id, some r.name, some r.business, some r.created_at, some r.updated_at⟩

/-- `ProductUpdate` of src/models/product.py.  The outer `Option` is
pydantic's per-field "explicitly set" bit; the embedded business, when set,
is a full `BusinessBase` replaced wholesale. -/
structure ProductUpdate where
  product_id : Option (Option Int)
  name : Option (Option String)
  business : Option (Option BusinessBase)
  deriving DecidableEq, Repr

/-- Pydantic validation of a `ProductUpdate` payload: a set, non-null
embedded business must satisfy the `BusinessBase` field rules. -/
def validProductUpdate (u : ProductUpdate) : Bool :=
  match u.business with
  | some (some b) => validBusinessBase b
  | _ => true

/-- `stored.update(update.model_dump(exclude_unset=True))` for products. -/
def mergeProduct (d : ProductDict) (u : ProductUpdate) : ProductDict :=
  ⟨u.product_id.getD d.product_id, u.name.getD d.name, u.business.getD d.business,
    d.created_at, d.updated_at⟩

/-- `ProductRead(**stored)` applied to a merged dict: all fields must be
non-null and the embedded business must validate. -/
def productReadOfDict (d : ProductDict) : Option ProductRead :=
  match d.product_id, d.name, d.business, d.created_at, d.updated_at with
  | some pid, some n, some b, some c, some t =>
      if validBusinessBase b then some ⟨pid, n, b, c, t⟩ else none
  | _, _, _, _, _ => none

abbrev ProductStore := List (Int × ProductRead)

/-- `create_product` of src/main.py: pydantic validates the payload, the
handler raises `Conflict` on a duplicate `product_id`, otherwise stamps both
timestamps with the current time and stores the record under its id. -/
def create_product (now : Nat) (payload : ProductBase) (s : ProductStore) :
    Except ApiError ProductRead × ProductStore :=
  if !validProductBase payload then (.error .InvalidFormat, s)
  else if (lookupKey s payload.product_id).isSome then (.error .Conflict, s)
  else
    let r : ProductRead := ⟨payload.product_id, payload.name, payload.business, now, now⟩
    (.ok r, upsert s r.product_id r)

/-- `list_products` of src/main.py: start from `list(products.values())` and
apply one exact-match filter per supplied query parameter, in order; the
business filters reach into the embedded snapshot. -/
def list_products (product_id : Option Int) (nm business_ein business_name : Option String)
    (s : ProductStore) : List ProductRead :=
  let results := s.map Prod.snd
  let results := match product_id with
    | none => results
    | some pid => results.filter (fun p => p.product_id == pid)
  let results := match nm with
    | none => results
    | some n => results.filter (fun p => p.name == n)
  let results := match business_ein with
    | none => results
    | some e => results.filter (fun p => p.business.ein == e)
  match business_name with
  | none => results
  | some n => results.filter (fun p => p.business.name == n)

/-- `get_product` of src/main.py: the stored record, or 404. -/
def get_product (product_id : Int) (s : ProductStore) : Except ApiError ProductRead :=
  match lookupKey s product_id with
  | none => .error .NotFound
  | some r => .ok r

/-- `update_product` of src/main.py: 404 on an absent key, merge the set
fields onto the stored dump, rebuild, store under the original path key. -/
def update_product (product_id : Int) (u : ProductUpdate) (s : ProductStore) :
    Except ApiError ProductRead × ProductStore :=
  if !validProductUpdate u then (.error .InvalidFormat, s)
  else match lookupKey s product_id with
    | none => (.error .NotFound, s)
    | some stored =>
        match productReadOfDict (mergeProduct stored.model_dump u) with
        | none => (.error .ValidationFailed, s)
        | some r => (.ok r, upsert s product_id r)

/-- `delete_product` of src/main.py: 404 on an absent key, otherwise remove. -/
def delete_product (product_id : Int) (s : ProductStore) :
    Except ApiError Unit × ProductStore :=
  if (lookupKey s product_id).isNone then (.error .NotFound, s)
  else (.ok (), eraseKey s product_id)

/-- The process-wide state of src/main.py: the two module-level dicts. -/
structure AppState where
  businesses : BusinessStore
  products : ProductStore
  deriving DecidableEq, Repr

/-- `create_product` as it acts on the whole process state: the handler body
references only the `products` dict. -/
def app_create_product (now : Nat) (p : ProductBase) (st : AppState) :
    Except ApiError ProductRead × AppState :=
  let (res, ps) := create_product now p st.products
  (res, ⟨st.businesses, ps⟩)

/-- `update_product` as it acts on the whole process state. -/
def app_update_product (k : Int) (u : ProductUpdate) (st : AppState) :
    Except ApiError ProductRead × AppState :=
  let (res, ps) := update_product k u st.products
  (res, ⟨st.businesses, ps⟩)

/-- `update_business` as it acts on the whole process state: the handler
body references only the `businesses` dict. -/
def app_update_business (k : String) (u : BusinessUpdate) (st : AppState) :
    Except ApiError BusinessRead × AppState :=
  let (res, bs) := update_business k u st.businesses
  (res, ⟨bs, st.products⟩)

deriving instance DecidableEq for Except

/-- Example data: the business of the spec scenario (section 8), apostrophe
dropped from the name. -/
def exBusiness : BusinessBase :=
  ⟨"12-3456789", "Ashleys Cupcakes", "ashleyscupcakes@example.com", none⟩

/-- Example data: the record stored for `exBusiness` at time 5. -/
def exBusinessRead : BusinessRead :=
  ⟨"12-3456789", "Ashleys Cupcakes", "ashleyscupcakes@example.com", none, 5, 5⟩

/-- Example data: a business store holding exactly `exBusinessRead`. -/
def exBStore : BusinessStore := [("12-3456789", exBusinessRead)]

/-- Example data: the product of the spec scenario. -/
def exProduct : ProductBase := ⟨0, "Vanilla Cupcake", exBusiness⟩

/-- Example data: the record stored for `exProduct` at time 5. -/
def exProductRead : ProductRead := ⟨0, "Vanilla Cupcake", exBusiness, 5, 5⟩

/-- Example data: a product store holding exactly `exProductRead`. -/
def exPStore : ProductStore := [((0 : Int), exProductRead)]

section StoreLemmas

variable {K V : Type} [DecidableEq K]

theorem lookupKey_upsert_self (s : List (K × V)) (k : K) (v : V) :
    lookupKey (upsert s k v) k = some v := by
  induction s with
  | nil => simp [upsert, lookupKey]
  | cons hd t ih =>
      obtain ⟨k', v'⟩ := hd
      by_cases h : k' = k
      · simp [upsert, lookupKey, h]
      · simp [upsert, lookupKey, h, ih]

theorem lookupKey_upsert_ne (s : List (K × V)) (k k' : K) (v : V) (h : k' ≠ k) :
    lookupKey (upsert s k v) k' = lookupKey s k' := by
  induction s with
  | nil => simp [upsert, lookupKey, Ne.symm h]
  | cons hd t ih =>
      obtain ⟨k₀, v₀⟩ := hd
      by_cases hk : k₀ = k
      · subst hk
        simp [upsert, lookupKey, Ne.symm h]
      · simp only [upsert, if_neg hk, lookupKey]
        by_cases hk' : k₀ = k'
        · simp [hk']
        · simp [hk', ih]

theorem upsert_self_of_lookup (s : List (K × V)) (k : K) (v : V)
    (h : lookupKey s k = some v) : upsert s k v = s := by
  induction s with
  | nil => simp [lookupKey] at h
  | cons hd t ih =>
      obtain ⟨k₀, v₀⟩ := hd
      by_cases hk : k₀ = k
      · subst hk
        simp only [lookupKey, if_true, eq_self_iff_true] at h
        simp only [upsert, if_true, eq_self_iff_true]
        simp_all
      · simp only [lookupKey, if_neg hk] at h
        simp [upsert, hk, ih h]

theorem lookupKey_upsert_isSome (s : List (K × V)) (k j : K) (v : V)
    (hk : (lookupKey s k).isSome = true) :
    (lookupKey (upsert s k v) j).isSome = (lookupKey s j).isSome := by
  by_cases hj : j = k
  · subst hj
    simp [lookupKey_upsert_self, hk]
  · rw [lookupKey_upsert_ne s k j v hj]

end StoreLemmas

/-- Whether a stored business matches every supplied business filter value. -/
def bMatches (ein nm email phone : Option String) (b : BusinessRead) : Prop :=
  (∀ v, ein = some v → b.ein = v) ∧ (∀ v, nm = some v → b.name = v) ∧
  (∀ v, email = some v → b.email = v) ∧ (∀ v, phone = some v → b.phone = some v)

theorem mem_list_businesses (ein nm email phone : Option String) (s : BusinessStore)
    (b : BusinessRead) :
    b ∈ list_businesses ein nm email phone s ↔
      b ∈ s.map Prod.snd ∧ bMatches ein nm email phone b := by
  unfold list_businesses bMatches
  rcases ein with _ | e <;> rcases nm with _ | n <;> rcases email with _ | m <;>
    rcases phone with _ | p <;>
    simp [List.mem_filter, and_assoc] <;> tauto

/-- Whether a stored product matches every supplied product filter value. -/
def pMatches (product_id : Option Int) (nm business_ein business_name : Option String)
    (p : ProductRead) : Prop :=
  (∀ v, product_id = some v → p.product_id = v) ∧ (∀ v, nm = some v → p.name = v) ∧
  (∀ v, business_ein = some v → p.business.ein = v) ∧
  (∀ v, business_name = some v → p.business.name = v)

theorem mem_list_products (product_id : Option Int)
    (nm business_ein business_name : Option String) (s : ProductStore) (p : ProductRead) :
    p ∈ list_products product_id nm business_ein business_name s ↔
      p ∈ s.map Prod.snd ∧ pMatches product_id nm business_ein business_name p := by
  unfold list_products pMatches
  rcases product_id with _ | i <;> rcases nm with _ | n <;> rcases business_ein with _ | e <;>
    rcases business_name with _ | bn <;>
    simp [List.mem_filter, and_assoc] <;> tauto

/-- Claim C1: for every store state and every valid Business payload whose
ein is already a key of the Business Store, Create fails with Conflict and
the store is unchanged, in particular the record already stored under that
ein is exactly the record stored before the call; the same holds for
Product Create on a duplicate product id. -/
theorem claim1_create_conflict :
    (∀ (now : Nat) (b : BusinessBase) (s : BusinessStore) (r : BusinessRead),
        validBusinessBase b = true → lookupKey s b.ein = some r →
        create_business now b s = (.error .Conflict, s) ∧
          lookupKey (create_business now b s).2 b.ein = some r) ∧
    (∀ (now : Nat) (p : ProductBase) (s : ProductStore) (r : ProductRead),
        validProductBase p = true → lookupKey s p.product_id = some r →
        create_product now p s = (.error .Conflict, s) ∧
          lookupKey (create_product now p s).2 p.product_id = some r) := by
  constructor
  · intro now b s r hv hl
    have hc : create_business now b s = (.error .Conflict, s) := by
      simp [create_business, hv, hl]
    exact ⟨hc, by rw [hc]; exact hl⟩
  · intro now p s r hv hl
    have hc : create_product now p s = (.error .Conflict, s) := by
      simp [create_product, hv, hl]
    exact ⟨hc, by rw [hc]; exact hl⟩

/-- Witness for claim C1 at the spec scenario data. -/
theorem claim1_witness :
    (create_business 7 exBusiness exBStore = (.error .Conflict, exBStore) ∧
      lookupKey (create_business 7 exBusiness exBStore).2 exBusiness.ein =
        some exBusinessRead) ∧
    (create_product 7 exProduct exPStore = (.error .Conflict, exPStore) ∧
      lookupKey (create_product 7 exProduct exPStore).2 exProduct.product_id =
        some exProductRead) :=
  ⟨claim1_create_conflict.1 7 exBusiness exBStore exBusinessRead (by decide) (by decide),
   claim1_create_conflict.2 7 exProduct exPStore exProductRead (by decide) (by decide)⟩

/-- Claim C6: for every store state and every key, Get, Update and Delete
fail with NotFound exactly when the key is absent from the store, and on
such a failure the store is unchanged; in particular deleting a nonexistent
key does not alter the number of stored records.  Update is taken at a
payload pydantic accepts, since an ill-formed payload is rejected before
the handler runs. -/
theorem claim6_notfound_iff_absent :
    (∀ (k : String) (s : BusinessStore),
        get_business k s = .error .NotFound ↔ lookupKey s k = none) ∧
    (∀ (k : String) (u : BusinessUpdate) (s : BusinessStore),
        validBusinessUpdate u = true →
        ((update_business k u s).1 = .error .NotFound ↔ lookupKey s k = none) ∧
          (lookupKey s k = none → (update_business k u s).2 = s)) ∧
    (∀ (k : String) (s : BusinessStore),
        ((delete_business k s).1 = .error .NotFound ↔ lookupKey s k = none) ∧
          (lookupKey s k = none →
            (delete_business k s).2 = s ∧ ((delete_business k s).2).length = s.length)) ∧
    (∀ (k : Int) (s : ProductStore),
        get_product k s = .error .NotFound ↔ lookupKey s k = none) ∧
    (∀ (k : Int) (u : ProductUpdate) (s : ProductStore),
        validProductUpdate u = true →
        ((update_product k u s).1 = .error .NotFound ↔ lookupKey s k = none) ∧
          (lookupKey s k = none → (update_product k u s).2 = s)) ∧
    (∀ (k : Int) (s : ProductStore),
        ((delete_product k s).1 = .error .NotFound ↔ lookupKey s k = none) ∧
          (lookupKey s k = none →
            (delete_product k s).2 = s ∧ ((delete_product k s).2).length = s.length)) := by
  refine ⟨?_, ?_, ?_, ?_, ?_, ?_⟩
  · intro k s
    cases hl : lookupKey s k <;> simp [get_business, hl]
  · intro k u s hv
    cases hl : lookupKey s k with
    | none => simp [update_business, hv, hl]
    | some stored =>
        cases hm : businessReadOfDict (mergeBusiness stored.model_dump u) <;>
          simp [update_business, hv, hl, hm]
  · intro k s
    cases hl : lookupKey s k <;> simp [delete_business, hl]
  · intro k s
    cases hl : lookupKey s k <;> simp [get_product, hl]
  · intro k u s hv
    cases hl : lookupKey s k with
    | none => simp [update_product, hv, hl]
    | some stored =>
        cases hm : productReadOfDict (mergeProduct stored.model_dump u) <;>
          simp [update_product, hv, hl, hm]
  · intro k s
    cases hl : lookupKey s k <;> simp [delete_product, hl]

/-- Witness for claim C6: update on an absent key with an accepted payload. -/
theorem claim6_witness :
    (((update_business "99-9999999" ⟨none, some (some "B"), none, none⟩ exBStore).1 =
          .error .NotFound ↔ lookupKey exBStore "99-9999999" = none) ∧
      (lookupKey exBStore "99-9999999" = none →
        (update_business "99-9999999" ⟨none, some (some "B"), none, none⟩ exBStore).2 =
          exBStore)) ∧
    (((delete_product 3 exPStore).1 = .error .NotFound ↔ lookupKey exPStore 3 = none) ∧
      (lookupKey exPStore 3 = none →
        (delete_product 3 exPStore).2 = exPStore ∧
          ((delete_product 3 exPStore).2).length = exPStore.length)) :=
  ⟨claim6_notfound_iff_absent.2.1 "99-9999999" ⟨none, some (some "B"), none, none⟩ exBStore
      (by decide),
   claim6_notfound_iff_absent.2.2.2.2.2 3 exPStore⟩

/-- A single business list filter: one query parameter with its value. -/
inductive BusinessFilter where
  | byEin : String → BusinessFilter
  | byName : String → BusinessFilter
  | byEmail : String → BusinessFilter
  | byPhone : String → BusinessFilter
  deriving DecidableEq, Repr

/-- Which query parameter a business filter constrains. -/
def BusinessFilter.fieldIdx : BusinessFilter → Nat
  | .byEin _ => 0
  | .byName _ => 1
  | .byEmail _ => 2
  | .byPhone _ => 3

/-- The `ein` query parameter a filter supplies, if any. -/
def BusinessFilter.einP : BusinessFilter → Option String
  | .byEin v => some v
  | _ => none

/-- The `name` query parameter a filter supplies, if any. -/
def BusinessFilter.nameP : BusinessFilter → Option String
  | .byName v => some v
  | _ => none

/-- The `email` query parameter a filter supplies, if any. -/
def BusinessFilter.emailP : BusinessFilter → Option String
  | .byEmail v => some v
  | _ => none

/-- The `phone` query parameter a filter supplies, if any. -/
def BusinessFilter.phoneP : BusinessFilter → Option String
  | .byPhone v => some v
  | _ => none

/-- Left-biased choice of optional query parameters. -/
def oor {α : Type} : Option α → Option α → Option α
  | some x, _ => some x
  | none, b => b

/-- `list_businesses` called with exactly one filter supplied. -/
def listBusinessesWith1 (f : BusinessFilter) (s : BusinessStore) : List BusinessRead :=
  list_businesses f.einP f.nameP f.emailP f.phoneP s

/-- `list_businesses` called with two filters supplied simultaneously. -/
def listBusinessesWith2 (f₁ f₂ : BusinessFilter) (s : BusinessStore) : List BusinessRead :=
  list_businesses (oor f₁.einP f₂.einP) (oor f₁.nameP f₂.nameP)
    (oor f₁.emailP f₂.emailP) (oor f₁.phoneP f₂.phoneP) s

/-- A single product list filter: one query parameter with its value. -/
inductive ProductFilter where
  | byId : Int → ProductFilter
  | byName : String → ProductFilter
  | byBusinessEin : String → ProductFilter
  | byBusinessName : String → ProductFilter
  deriving DecidableEq, Repr

/-- Which query parameter a product filter constrains. -/
def ProductFilter.fieldIdx : ProductFilter → Nat
  | .byId _ => 0
  | .byName _ => 1
  | .byBusinessEin _ => 2
  | .byBusinessName _ => 3

/-- The `product_id` query parameter a filter supplies, if any. -/
def ProductFilter.idP : ProductFilter → Option Int
  | .byId v => some v
  | _ => none

/-- The `name` query parameter a filter supplies, if any. -/
def ProductFilter.nameP : ProductFilter → Option String
  | .byName v => some v
  | _ => none

/-- The `business_ein` query parameter a filter supplies, if any. -/
def ProductFilter.beinP : ProductFilter → Option String
  | .byBusinessEin v => some v
  | _ => none

/-- The `business_name` query parameter a filter supplies, if any. -/
def ProductFilter.bnameP : ProductFilter → Option String
  | .byBusinessName v => some v
  | _ => none

/-- `list_products` called with exactly one filter supplied. -/
def listProductsWith1 (f : ProductFilter) (s : ProductStore) : List ProductRead :=
  list_products f.idP f.nameP f.beinP f.bnameP s

/-- `list_products` called with two filters supplied simultaneously. -/
def listProductsWith2 (f₁ f₂ : ProductFilter) (s : ProductStore) : List ProductRead :=
  list_products (oor f₁.idP f₂.idP) (oor f₁.nameP f₂.nameP)
    (oor f₁.beinP f₂.beinP) (oor f₁.bnameP f₂.bnameP) s

/-- Claim C4: for every store state and every pair of filter values on
distinct filter fields, List with both supplied returns exactly the records
appearing both in the result of List with only the first and in the result
of List with only the second (AND semantics); and List with no filters
returns every stored record. -/
theorem claim4_filter_conjunction :
    (∀ (s : BusinessStore) (f₁ f₂ : BusinessFilter), f₁.fieldIdx ≠ f₂.fieldIdx →
        ∀ b, b ∈ listBusinessesWith2 f₁ f₂ s ↔
          b ∈ listBusinessesWith1 f₁ s ∧ b ∈ listBusinessesWith1 f₂ s) ∧
    (∀ s : BusinessStore, list_businesses none none none none s = s.map Prod.snd) ∧
    (∀ (s : ProductStore) (f₁ f₂ : ProductFilter), f₁.fieldIdx ≠ f₂.fieldIdx →
        ∀ p, p ∈ listProductsWith2 f₁ f₂ s ↔
          p ∈ listProductsWith1 f₁ s ∧ p ∈ listProductsWith1 f₂ s) ∧
    (∀ s : ProductStore, list_products none none none none s = s.map Prod.snd) := by
  refine ⟨?_, ?_, ?_, ?_⟩
  · intro s f₁ f₂ hne b
    cases f₁ <;> cases f₂ <;>
      simp_all [listBusinessesWith1, listBusinessesWith2, mem_list_businesses, bMatches,
        BusinessFilter.fieldIdx, BusinessFilter.einP, BusinessFilter.nameP,
        BusinessFilter.emailP, BusinessFilter.phoneP, oor] <;> tauto
  · intro s
    rfl
  · intro s f₁ f₂ hne p
    cases f₁ <;> cases f₂ <;>
      simp_all [listProductsWith1, listProductsWith2, mem_list_products, pMatches,
        ProductFilter.fieldIdx, ProductFilter.idP, ProductFilter.nameP,
        ProductFilter.beinP, ProductFilter.bnameP, oor] <;> tauto
  · intro s
    rfl

/-- Witness for claim C4: the spec scenario filters at concrete stores. -/
theorem claim4_witness :
    (exBusinessRead ∈ listBusinessesWith2 (.byEin "12-3456789") (.byName "Ashleys Cupcakes")
          exBStore ↔
        exBusinessRead ∈ listBusinessesWith1 (.byEin "12-3456789") exBStore ∧
          exBusinessRead ∈ listBusinessesWith1 (.byName "Ashleys Cupcakes") exBStore) ∧
    (exProductRead ∈ listProductsWith2 (.byId 0) (.byBusinessEin "12-3456789") exPStore ↔
        exProductRead ∈ listProductsWith1 (.byId 0) exPStore ∧
          exProductRead ∈ listProductsWith1 (.byBusinessEin "12-3456789") exPStore) :=
  ⟨claim4_filter_conjunction.1 exBStore (.byEin "12-3456789") (.byName "Ashleys Cupcakes")
      (by decide) exBusinessRead,
   claim4_filter_conjunction.2.2.1 exPStore (.byId 0) (.byBusinessEin "12-3456789")
      (by decide) exProductRead⟩

theorem businessReadOfDict_some (d : BusinessDict) (r : BusinessRead)
    (h : businessReadOfDict d = some r) :
    d.ein = some r.ein ∧ d.name = some r.name ∧ d.email = some r.email ∧
      d.phone = r.phone ∧ d.created_at = some r.created_at ∧
      d.updated_at = some r.updated_at := by
  unfold businessReadOfDict at h
  split at h
  · split_ifs at h
    cases h
    simp_all
  · cases h

theorem productReadOfDict_some (d : ProductDict) (r : ProductRead)
    (h : productReadOfDict d = some r) :
    d.product_id = some r.product_id ∧ d.name = some r.name ∧
      d.business = some r.business ∧ d.created_at = some r.created_at ∧
      d.updated_at = some r.updated_at := by
  unfold productReadOfDict at h
  split at h
  · split_ifs at h
    cases h
    simp_all
  · cases h

theorem update_business_ok (k : String) (u : BusinessUpdate) (s : BusinessStore)
    (r' : BusinessRead) (s' : BusinessStore)
    (h : update_business k u s = (.ok r', s')) :
    ∃ r, validBusinessUpdate u = true ∧ lookupKey s k = some r ∧
      businessReadOfDict (mergeBusiness r.model_dump u) = some r' ∧ s' = upsert s k r' := by
  unfold update_business at h
  split_ifs at h with hv
  · cases h
  · cases hl : lookupKey s k with
    | none => rw [hl] at h; cases h
    | some stored =>
        rw [hl] at h
        cases hm : businessReadOfDict (mergeBusiness stored.model_dump u) with
        | none => simp [hm] at h
        | some r₀ =>
            simp only [hm] at h
            injection h with h1 h2
            injection h1 with h1
            subst h1
            subst h2
            exact ⟨stored, by simpa using hv, rfl, hm, rfl⟩

theorem update_product_ok (k : Int) (u : ProductUpdate) (s : ProductStore)
    (r' : ProductRead) (s' : ProductStore)
    (h : update_product k u s = (.ok r', s')) :
    ∃ r, validProductUpdate u = true ∧ lookupKey s k = some r ∧
      productReadOfDict (mergeProduct r.model_dump u) = some r' ∧ s' = upsert s k r' := by
  unfold update_product at h
  split_ifs at h with hv
  · cases h
  · cases hl : lookupKey s k with
    | none => rw [hl] at h; cases h
    | some stored =>
        rw [hl] at h
        cases hm : productReadOfDict (mergeProduct stored.model_dump u) with
        | none => simp [hm] at h
        | some r₀ =>
            simp only [hm] at h
            injection h with h1 h2
            injection h1 with h1
            subst h1
            subst h2
            exact ⟨stored, by simpa using hv, rfl, hm, rfl⟩

/-- Claim C2: for every stored record and every partial-update payload, the
merged record returned and stored by Update has, for each field explicitly
present in the payload (including a field explicitly set to None), exactly
the payload value, and for each field absent from the payload exactly the
previously stored value; absence and explicit defaults are distinguished by
the per-field set bit the payload carries. -/
theorem claim2_merge_semantics :
    (∀ (k : String) (u : BusinessUpdate) (s : BusinessStore) (r r' : BusinessRead)
        (s' : BusinessStore),
        lookupKey s k = some r → update_business k u s = (.ok r', s') →
        (∀ v, u.ein = some (some v) → r'.ein = v) ∧ (u.ein = none → r'.ein = r.ein) ∧
        (∀ v, u.name = some (some v) → r'.name = v) ∧ (u.name = none → r'.name = r.name) ∧
        (∀ v, u.email = some (some v) → r'.email = v) ∧
        (u.email = none → r'.email = r.email) ∧
        (∀ v, u.phone = some v → r'.phone = v) ∧ (u.phone = none → r'.phone = r.phone) ∧
        r'.created_at = r.created_at ∧ r'.updated_at = r.updated_at ∧
        lookupKey s' k = some r') ∧
    (∀ (k : Int) (u : ProductUpdate) (s : ProductStore) (r r' : ProductRead)
        (s' : ProductStore),
        lookupKey s k = some r → update_product k u s = (.ok r', s') →
        (∀ v, u.product_id = some (some v) → r'.product_id = v) ∧
        (u.product_id = none → r'.product_id = r.product_id) ∧
        (∀ v, u.name = some (some v) → r'.name = v) ∧ (u.name = none → r'.name = r.name) ∧
        (∀ v, u.business = some (some v) → r'.business = v) ∧
        (u.business = none → r'.business = r.business) ∧
        r'.created_at = r.created_at ∧ r'.updated_at = r.updated_at ∧
        lookupKey s' k = some r') := by
  constructor
  · intro k u s r r' s' hl hup
    obtain ⟨r₀, hv, hl₀, hm, hs⟩ := update_business_ok k u s r' s' hup
    rw [hl] at hl₀
    injection hl₀ with hr₀
    subst hr₀
    obtain ⟨he, hn, hm', hp, hc, ht⟩ := businessReadOfDict_some _ _ hm
    simp only [mergeBusiness, BusinessRead.model_dump] at he hn hm' hp hc ht
    subst hs
    refine ⟨?_, ?_, ?_, ?_, ?_, ?_, ?_, ?_, ?_, ?_, ?_⟩
    · intro v hv'; rw [hv'] at he; simpa using he.symm
    · intro hv'; rw [hv'] at he; simpa using he.symm
    · intro v hv'; rw [hv'] at hn; simpa using hn.symm
    · intro hv'; rw [hv'] at hn; simpa using hn.symm
    · intro v hv'; rw [hv'] at hm'; simpa using hm'.symm
    · intro hv'; rw [hv'] at hm'; simpa using hm'.symm
    · intro v hv'; rw [hv'] at hp; simpa using hp.symm
    · intro hv'; rw [hv'] at hp; simpa using hp.symm
    · simpa using hc.symm
    · simpa using ht.symm
    · exact lookupKey_upsert_self s k r'
  · intro k u s r r' s' hl hup
    obtain ⟨r₀, hv, hl₀, hm, hs⟩ := update_product_ok k u s r' s' hup
    rw [hl] at hl₀
    injection hl₀ with hr₀
    subst hr₀
    obtain ⟨hi, hn, hb, hc, ht⟩ := productReadOfDict_some _ _ hm
    simp only [mergeProduct, ProductRead.model_dump] at hi hn hb hc ht
    subst hs
    refine ⟨?_, ?_, ?_, ?_, ?_, ?_, ?_, ?_, ?_⟩
    · intro v hv'; rw [hv'] at hi; simpa using hi.symm
    · intro hv'; rw [hv'] at hi; simpa using hi.symm
    · intro v hv'; rw [hv'] at hn; simpa using hn.symm
    · intro hv'; rw [hv'] at hn; simpa using hn.symm
    · intro v hv'; rw [hv'] at hb; simpa using hb.symm
    · intro hv'; rw [hv'] at hb; simpa using hb.symm
    · simpa using hc.symm
    · simpa using ht.symm
    · exact lookupKey_upsert_self s k r'

/-- The spec wording of the EIN rule, stated independently of the regex
engine: the string is exactly two decimal digits, a hyphen, and seven
decimal digits. -/
def einSpecFormat (s : String) : Bool :=
  match s.data with
  | [a, b, h, c3, c4, c5, c6, c7, c8, c9] =>
      (a.isDigit && b.isDigit) && (h == '-') &&
        (c3.isDigit && c4.isDigit && c5.isDigit && c6.isDigit && c7.isDigit &&
          c8.isDigit && c9.isDigit)
  | _ => false

theorem einMatches_eq_spec (s : String) : einMatches s = einSpecFormat s := by
  rcases s with ⟨cs⟩
  rcases cs with _ | ⟨a, cs⟩
  · rfl
  rcases cs with _ | ⟨b, cs⟩
  · simp only [einMatches, einSpecFormat, matchDigits, matchLit]
    repeat' (split_ifs <;> try simp_all [matchDigits, matchLit])
  rcases cs with _ | ⟨h, cs⟩
  · simp only [einMatches, einSpecFormat, matchDigits, matchLit]
    repeat' (split_ifs <;> try simp_all [matchDigits, matchLit])
  rcases cs with _ | ⟨c3, cs⟩
  · simp only [einMatches, einSpecFormat, matchDigits, matchLit]
    repeat' (split_ifs <;> try simp_all [matchDigits, matchLit])
  rcases cs with _ | ⟨c4, cs⟩
  · simp only [einMatches, einSpecFormat, matchDigits, matchLit]
    repeat' (split_ifs <;> try simp_all [matchDigits, matchLit])
  rcases cs with _ | ⟨c5, cs⟩
  · simp only [einMatches, einSpecFormat, matchDigits, matchLit]
    repeat' (split_ifs <;> try simp_all [matchDigits, matchLit])
  rcases cs with _ | ⟨c6, cs⟩
  · simp only [einMatches, einSpecFormat, matchDigits, matchLit]
    repeat' (split_ifs <;> try simp_all [matchDigits, matchLit])
  rcases cs with _ | ⟨c7, cs⟩
  · simp only [einMatches, einSpecFormat, matchDigits, matchLit]
    repeat' (split_ifs <;> try simp_all [matchDigits, matchLit])
  rcases cs with _ | ⟨c8, cs⟩
  · simp only [einMatches, einSpecFormat, matchDigits, matchLit]
    repeat' (split_ifs <;> try simp_all [matchDigits, matchLit])
  rcases cs with _ | ⟨c9, cs⟩
  · simp only [einMatches, einSpecFormat, matchDigits, matchLit]
    repeat' (split_ifs <;> try simp_all [matchDigits, matchLit])
  rcases cs with _ | ⟨k, cs⟩
  · simp only [einMatches, einSpecFormat, matchDigits, matchLit]
    repeat' (split_ifs <;> try simp_all [matchDigits, matchLit])
  rcases cs with _ | ⟨k2, rest⟩
  · simp only [einMatches, einSpecFormat, matchDigits, matchLit]
    repeat' (split_ifs <;> try simp_all [matchDigits, matchLit])
  · simp only [einMatches, einSpecFormat, matchDigits, matchLit]
    repeat' (split_ifs <;> try simp_all [matchDigits, matchLit])

/-- Claim C7: business validation accepts a candidate ein exactly when it is
two digits, a hyphen, and seven digits; a payload whose ein deviates (on
business create, on a business update that sets ein, on product create with
an embedded business, on a product update that sets the embedded business)
fails with InvalidFormat and the store is unchanged; in particular the
hyphen-free "123456789" is rejected. -/
theorem claim7_ein_format :
    (∀ e : String, einMatches e = einSpecFormat e) ∧
    (∀ (now : Nat) (b : BusinessBase) (s : BusinessStore),
        einMatches b.ein = false → create_business now b s = (.error .InvalidFormat, s)) ∧
    (∀ (k : String) (u : BusinessUpdate) (s : BusinessStore) (v : String),
        u.ein = some (some v) → einMatches v = false →
        update_business k u s = (.error .InvalidFormat, s)) ∧
    (∀ (now : Nat) (p : ProductBase) (s : ProductStore),
        einMatches p.business.ein = false →
        create_product now p s = (.error .InvalidFormat, s)) ∧
    (∀ (k : Int) (u : ProductUpdate) (s : ProductStore) (b : BusinessBase),
        u.business = some (some b) → einMatches b.ein = false →
        update_product k u s = (.error .InvalidFormat, s)) ∧
    einMatches "123456789" = false := by
  refine ⟨einMatches_eq_spec, ?_, ?_, ?_, ?_, by decide⟩
  · intro now b s h
    simp [create_business, validBusinessBase, h]
  · intro k u s v hu h
    simp [update_business, validBusinessUpdate, hu, h]
  · intro now p s h
    simp [create_product, validProductBase, validBusinessBase, h]
  · intro k u s b hu h
    simp [update_product, validProductUpdate, hu, validBusinessBase, h]

/-- Witness for claim C7: the spec scenario of the hyphen-free EIN. -/
theorem claim7_witness :
    create_business 0 ⟨"123456789", "NoHyphen Inc", "a@example.com", none⟩ [] =
        (.error .InvalidFormat, ([] : BusinessStore)) ∧
      update_business "12-3456789" ⟨some (some "12-345678"), none, none, none⟩ exBStore =
        (.error .InvalidFormat, exBStore) :=
  ⟨claim7_ein_format.2.1 0 ⟨"123456789", "NoHyphen Inc", "a@example.com", none⟩ []
      (by decide),
   claim7_ein_format.2.2.1 "12-3456789" ⟨some (some "12-345678"), none, none, none⟩
      exBStore "12-345678" rfl (by decide)⟩

/-- Claim C5: for every valid payload whose key is not yet present, a
successful Create followed immediately by Get on that key returns a record
equal to the created record in all fields, the payload fields copied
verbatim and both timestamps stamped with the creation time. -/
theorem claim5_create_then_get :
    (∀ (now : Nat) (b : BusinessBase) (s : BusinessStore),
        validBusinessBase b = true → lookupKey s b.ein = none →
        ∃ (r : BusinessRead) (s' : BusinessStore),
          create_business now b s = (.ok r, s') ∧ get_business b.ein s' = .ok r ∧
          r.ein = b.ein ∧ r.name = b.name ∧ r.email = b.email ∧ r.phone = b.phone ∧
          r.created_at = now ∧ r.updated_at = now) ∧
    (∀ (now : Nat) (p : ProductBase) (s : ProductStore),
        validProductBase p = true → lookupKey s p.product_id = none →
        ∃ (r : ProductRead) (s' : ProductStore),
          create_product now p s = (.ok r, s') ∧ get_product p.product_id s' = .ok r ∧
          r.product_id = p.product_id ∧ r.name = p.name ∧ r.business = p.business ∧
          r.created_at = now ∧ r.updated_at = now) := by
  constructor
  · intro now b s hv hl
    refine ⟨⟨b.ein, b.name, b.email, b.phone, now, now⟩, upsert s b.ein
      ⟨b.ein, b.name, b.email, b.phone, now, now⟩, ?_, ?_, rfl, rfl, rfl, rfl, rfl, rfl⟩
    · simp [create_business, hv, hl]
    · simp [get_business, lookupKey_upsert_self]
  · intro now p s hv hl
    refine ⟨⟨p.product_id, p.name, p.business, now, now⟩, upsert s p.product_id
      ⟨p.product_id, p.name, p.business, now, now⟩, ?_, ?_, rfl, rfl, rfl, rfl, rfl⟩
    · simp [create_product, hv, hl]
    · simp [get_product, lookupKey_upsert_self]

/-- Witness for claim C5: creating the spec scenario business and product in
empty stores and reading them back. -/
theorem claim5_witness :
    (∃ (r : BusinessRead) (s' : BusinessStore),
        create_business 5 exBusiness [] = (.ok r, s') ∧
          get_business exBusiness.ein s' = .ok r ∧
          r.ein = exBusiness.ein ∧ r.name = exBusiness.name ∧
          r.email = exBusiness.email ∧ r.phone = exBusiness.phone ∧
          r.created_at = 5 ∧ r.updated_at = 5) ∧
    (∃ (r : ProductRead) (s' : ProductStore),
        create_product 5 exProduct [] = (.ok r, s') ∧
          get_product exProduct.product_id s' = .ok r ∧
          r.product_id = exProduct.product_id ∧ r.name = exProduct.name ∧
          r.business = exProduct.business ∧ r.created_at = 5 ∧ r.updated_at = 5) :=
  ⟨claim5_create_then_get.1 5 exBusiness [] (by decide) rfl,
   claim5_create_then_get.2 5 exProduct [] (by decide) rfl⟩

/-- Example data: a partial update setting only name and phone. -/
def c2update : BusinessUpdate :=
  ⟨none, some (some "Ashleys Bakery"), none, some (some "+1-415-555-0199")⟩

/-- Example data: the record produced by applying `c2update` to
`exBusinessRead`. -/
def c2result : BusinessRead :=
  ⟨"12-3456789", "Ashleys Bakery", "ashleyscupcakes@example.com",
    some "+1-415-555-0199", 5, 5⟩

/-- Example data: the business store after applying `c2update`. -/
def c2store : BusinessStore := [("12-3456789", c2result)]

/-- Witness for claim C2: applying a name-and-phone update to the spec
scenario record overwrites exactly those fields and keeps the rest. -/
theorem claim2_witness :
    c2result.name = "Ashleys Bakery" ∧ c2result.phone = some "+1-415-555-0199" ∧
      c2result.ein = exBusinessRead.ein ∧ c2result.created_at = exBusinessRead.created_at ∧
      c2result.updated_at = exBusinessRead.updated_at ∧
      lookupKey c2store "12-3456789" = some c2result := by
  obtain ⟨he, he0, hn, hn0, hm, hm0, hp, hp0, hc, ht, hl⟩ :=
    claim2_merge_semantics.1 "12-3456789" c2update exBStore exBusinessRead c2result c2store
      (by decide) (by decide)
  exact ⟨hn "Ashleys Bakery" rfl, hp (some "+1-415-555-0199") rfl, he0 rfl, hc, ht, hl⟩

/-- Claim C10: updating a stored (hence valid) record with an empty partial
payload returns the stored record unchanged, in every field including both
timestamps, and leaves the store unchanged. -/
theorem claim10_empty_update_identity :
    (∀ (k : String) (s : BusinessStore) (r : BusinessRead),
        lookupKey s k = some r → validBusinessBase r.toBase = true →
        update_business k ⟨none, none, none, none⟩ s = (.ok r, s)) ∧
    (∀ (k : Int) (s : ProductStore) (r : ProductRead),
        lookupKey s k = some r → validBusinessBase r.business = true →
        update_product k ⟨none, none, none⟩ s = (.ok r, s)) := by
  constructor
  · intro k s r hl hv
    simp only [validBusinessBase, BusinessRead.toBase, Bool.and_eq_true] at hv
    have hd : businessReadOfDict
        (mergeBusiness r.model_dump ⟨none, none, none, none⟩) = some r := by
      simp [mergeBusiness, BusinessRead.model_dump, businessReadOfDict, hv.1, hv.2]
    simp [update_business, validBusinessUpdate, hl, hd, upsert_self_of_lookup s k r hl]
  · intro k s r hl hv
    have hd : productReadOfDict (mergeProduct r.model_dump ⟨none, none, none⟩) = some r := by
      simp [mergeProduct, ProductRead.model_dump, productReadOfDict, hv]
    simp [update_product, validProductUpdate, hl, hd, upsert_self_of_lookup s k r hl]

/-- Witness for claim C10: the empty update on the spec scenario stores. -/
theorem claim10_witness :
    update_business "12-3456789" ⟨none, none, none, none⟩ exBStore =
        (.ok exBusinessRead, exBStore) ∧
      update_product 0 ⟨none, none, none⟩ exPStore = (.ok exProductRead, exPStore) :=
  ⟨claim10_empty_update_identity.1 "12-3456789" exBStore exBusinessRead (by decide)
      (by decide),
   claim10_empty_update_identity.2 0 exPStore exProductRead (by decide) (by decide)⟩

/-- Claim C9: a successful Update never changes the set of keys of a store;
a business update whose payload sets ein to a fresh value distinct from the
addressed key stores the merged record under the original key, Get on the
original key returns it, and no entry appears under the new ein; likewise
for product ids. -/
theorem claim9_update_never_rekeys :
    (∀ (k : String) (u : BusinessUpdate) (s : BusinessStore) (r' : BusinessRead)
        (s' : BusinessStore), update_business k u s = (.ok r', s') →
        ∀ j, (lookupKey s' j).isSome = (lookupKey s j).isSome) ∧
    (∀ (k : Int) (u : ProductUpdate) (s : ProductStore) (r' : ProductRead)
        (s' : ProductStore), update_product k u s = (.ok r', s') →
        ∀ j, (lookupKey s' j).isSome = (lookupKey s j).isSome) ∧
    (∀ (s : BusinessStore) (k e' : String) (r : BusinessRead),
        lookupKey s k = some r → lookupKey s e' = none → e' ≠ k →
        einMatches e' = true → emailValid r.email = true →
        ∃ r' : BusinessRead,
          update_business k ⟨some (some e'), none, none, none⟩ s =
              (.ok r', upsert s k r') ∧
            r'.ein = e' ∧ get_business k (upsert s k r') = .ok r' ∧
            get_business e' (upsert s k r') = .error .NotFound) ∧
    (∀ (s : ProductStore) (k i' : Int) (r : ProductRead),
        lookupKey s k = some r → lookupKey s i' = none → i' ≠ k →
        validBusinessBase r.business = true →
        ∃ r' : ProductRead,
          update_product k ⟨some (some i'), none, none⟩ s = (.ok r', upsert s k r') ∧
            r'.product_id = i' ∧ get_product k (upsert s k r') = .ok r' ∧
            get_product i' (upsert s k r') = .error .NotFound) := by
  refine ⟨?_, ?_, ?_, ?_⟩
  · intro k u s r' s' hup j
    obtain ⟨r₀, hv, hl₀, hm, hs⟩ := update_business_ok k u s r' s' hup
    subst hs
    exact lookupKey_upsert_isSome s k j r' (by simp [hl₀])
  · intro k u s r' s' hup j
    obtain ⟨r₀, hv, hl₀, hm, hs⟩ := update_product_ok k u s r' s' hup
    subst hs
    exact lookupKey_upsert_isSome s k j r' (by simp [hl₀])
  · intro s k e' r hl he' hne he hm
    refine ⟨⟨e', r.name, r.email, r.phone, r.created_at, r.updated_at⟩, ?_, rfl, ?_, ?_⟩
    · simp [update_business, validBusinessUpdate, he, hl, mergeBusiness,
        BusinessRead.model_dump, businessReadOfDict, hm]
    · simp [get_business, lookupKey_upsert_self]
    · have hgone := lookupKey_upsert_ne s k e'
        (⟨e', r.name, r.email, r.phone, r.created_at, r.updated_at⟩ : BusinessRead) hne
      simp [get_business, hgone, he']
  · intro s k i' r hl hi' hne hb
    refine ⟨⟨i', r.name, r.business, r.created_at, r.updated_at⟩, ?_, rfl, ?_, ?_⟩
    · simp [update_product, validProductUpdate, hl, mergeProduct,
        ProductRead.model_dump, productReadOfDict, hb]
    · simp [get_product, lookupKey_upsert_self]
    · have hgone := lookupKey_upsert_ne s k i'
        (⟨i', r.name, r.business, r.created_at, r.updated_at⟩ : ProductRead) hne
      simp [get_product, hgone, hi']

/-- Witness for claim C9: re-keying updates on the spec scenario stores. -/
theorem claim9_witness :
    (∃ r' : BusinessRead,
        update_business "12-3456789" ⟨some (some "98-7654321"), none, none, none⟩ exBStore =
            (.ok r', upsert exBStore "12-3456789" r') ∧
          r'.ein = "98-7654321" ∧
          get_business "12-3456789" (upsert exBStore "12-3456789" r') = .ok r' ∧
          get_business "98-7654321" (upsert exBStore "12-3456789" r') = .error .NotFound) ∧
    (∃ r' : ProductRead,
        update_product 0 ⟨some (some 7), none, none⟩ exPStore = (.ok r', upsert exPStore 0 r') ∧
          r'.product_id = 7 ∧ get_product 0 (upsert exPStore 0 r') = .ok r' ∧
          get_product 7 (upsert exPStore 0 r') = .error .NotFound) :=
  ⟨claim9_update_never_rekeys.2.2.1 exBStore "12-3456789" "98-7654321" exBusinessRead
      (by decide) (by decide) (by decide) (by decide) (by decide),
   claim9_update_never_rekeys.2.2.2 exPStore 0 7 exProductRead
      (by decide) (by decide) (by decide) (by decide)⟩

/-- Example data: a partial update setting only the business name. -/
def c3update : BusinessUpdate := ⟨none, some (some "Ashleys Bakery"), none, none⟩

/-- Example data: the record produced by applying `c3update` to
`exBusinessRead`. -/
def c3result : BusinessRead :=
  ⟨"12-3456789", "Ashleys Bakery", "ashleyscupcakes@example.com", none, 5, 5⟩

/-- Counterexample to claim C3 as stated: a successful business update whose
stored result keeps updated_at equal to the pre-update value.  The update
handler never reads the clock, so the claimed refresh cannot occur at any
later time. -/
theorem claim3_counterexample :
    update_business "12-3456789" c3update exBStore =
        (.ok c3result, [("12-3456789", c3result)]) ∧
      c3result.updated_at = exBusinessRead.updated_at ∧
      exBusinessRead.updated_at = 5 := by decide

/-- Claim C3 as amended: for every successful Update of a Business or
Product, the stored result carries both timestamps over unchanged from the
stored record: created_at keeps its creation-time value and updated_at
keeps its pre-update value rather than being refreshed. -/
theorem claim3_update_timestamps :
    (∀ (k : String) (u : BusinessUpdate) (s : BusinessStore) (r r' : BusinessRead)
        (s' : BusinessStore),
        lookupKey s k = some r → update_business k u s = (.ok r', s') →
        r'.created_at = r.created_at ∧ r'.updated_at = r.updated_at) ∧
    (∀ (k : Int) (u : ProductUpdate) (s : ProductStore) (r r' : ProductRead)
        (s' : ProductStore),
        lookupKey s k = some r → update_product k u s = (.ok r', s') →
        r'.created_at = r.created_at ∧ r'.updated_at = r.updated_at) := by
  constructor
  · intro k u s r r' s' hl hup
    obtain ⟨r₀, hv, hl₀, hm, hs⟩ := update_business_ok k u s r' s' hup
    rw [hl] at hl₀
    injection hl₀ with hr₀
    subst hr₀
    obtain ⟨_, _, _, _, hc, ht⟩ := businessReadOfDict_some _ _ hm
    simp only [mergeBusiness, BusinessRead.model_dump] at hc ht
    exact ⟨by simpa using hc.symm, by simpa using ht.symm⟩
  · intro k u s r r' s' hl hup
    obtain ⟨r₀, hv, hl₀, hm, hs⟩ := update_product_ok k u s r' s' hup
    rw [hl] at hl₀
    injection hl₀ with hr₀
    subst hr₀
    obtain ⟨_, _, _, hc, ht⟩ := productReadOfDict_some _ _ hm
    simp only [mergeProduct, ProductRead.model_dump] at hc ht
    exact ⟨by simpa using hc.symm, by simpa using ht.symm⟩

/-- Witness for amended claim C3: the name-only update of the spec scenario
keeps created_at 5 and updated_at 5. -/
theorem claim3_witness :
    c3result.created_at = exBusinessRead.created_at ∧
      c3result.updated_at = exBusinessRead.updated_at :=
  claim3_update_timestamps.1 "12-3456789" c3update exBStore exBusinessRead c3result
    [("12-3456789", c3result)] (by decide) (by decide)

/-- Claim C8: the two stores are independent: product creation and update
neither read nor modify the Business Store (their outcome is the same for
any two states agreeing on the Product Store, so the embedded business is
accepted whether or not its ein is a Business Store key), and a business
update leaves every stored product, embedded snapshot included, unchanged. -/
theorem claim8_store_independence :
    (∀ (now : Nat) (p : ProductBase) (st : AppState),
        (app_create_product now p st).2.businesses = st.businesses) ∧
    (∀ (now : Nat) (p : ProductBase) (st₁ st₂ : AppState), st₁.products = st₂.products →
        (app_create_product now p st₁).1 = (app_create_product now p st₂).1 ∧
          (app_create_product now p st₁).2.products =
            (app_create_product now p st₂).2.products) ∧
    (∀ (k : Int) (u : ProductUpdate) (st : AppState),
        (app_update_product k u st).2.businesses = st.businesses) ∧
    (∀ (k : Int) (u : ProductUpdate) (st₁ st₂ : AppState), st₁.products = st₂.products →
        (app_update_product k u st₁).1 = (app_update_product k u st₂).1 ∧
          (app_update_product k u st₁).2.products =
            (app_update_product k u st₂).2.products) ∧
    (∀ (k : String) (u : BusinessUpdate) (st : AppState),
        (app_update_business k u st).2.products = st.products ∧
        ∀ (pid : Int) (pr : ProductRead), lookupKey st.products pid = some pr →
          lookupKey (app_update_business k u st).2.products pid = some pr) := by
  refine ⟨?_, ?_, ?_, ?_, ?_⟩
  · intro now p st
    simp [app_create_product]
  · intro now p st₁ st₂ hp
    constructor <;> simp [app_create_product, hp]
  · intro k u st
    simp [app_update_product]
  · intro k u st₁ st₂ hp
    constructor <;> simp [app_update_product, hp]
  · intro k u st
    refine ⟨?_, ?_⟩
    · simp [app_update_business]
    · intro pid pr hl
      simpa [app_update_business] using hl

/-- Witness for claim C8: a product created on two states that differ only
in the Business Store (one empty, one holding the scenario business), and a
business update that leaves the stored product snapshot in place. -/
theorem claim8_witness :
    ((app_create_product 9 ⟨1, "Chocolate Cupcake", exBusiness⟩ ⟨[], exPStore⟩).1 =
        (app_create_product 9 ⟨1, "Chocolate Cupcake", exBusiness⟩ ⟨exBStore, exPStore⟩).1 ∧
      (app_create_product 9 ⟨1, "Chocolate Cupcake", exBusiness⟩ ⟨[], exPStore⟩).2.products =
        (app_create_product 9 ⟨1, "Chocolate Cupcake", exBusiness⟩
            ⟨exBStore, exPStore⟩).2.products) ∧
    lookupKey (app_update_business "12-3456789" c3update
        ⟨exBStore, exPStore⟩).2.products 0 = some exProductRead :=
  ⟨claim8_store_independence.2.1 9 ⟨1, "Chocolate Cupcake", exBusiness⟩ ⟨[], exPStore⟩
      ⟨exBStore, exPStore⟩ rfl,
   (claim8_store_independence.2.2.2.2 "12-3456789" c3update ⟨exBStore, exPStore⟩).2 0
      exProductRead (by decide)⟩
